import Mathlib

/-!
# crawler.js: a verification development

A shallow embedding of `src/crawler.js` (an OPC UA address-space crawler written
against `node-opcua`, `async` and `yargs`) together with theorems about

* the `SIGINT` handler and its interruption counter (lines 398-415),
* the start-up computation of `timeout` (lines 68-72),
* the user identity handed to `client.createSession` (lines 205-224),
* the main `async.series` sequence and its final callback (lines 143-392),
* the event dump queue `q` / `dumpEvent` / `__dumpEvent` (lines 106-140).

Stateful JavaScript is modelled by explicit state passing.  Calls into the
libraries (`node-opcua`, `async`, `exit`) are modelled by their outcomes, which
are supplied from outside as an oracle; the control flow of the file itself is
transcribed statement by statement.
-/

namespace Crawler

/-! ## The SIGINT handler (lines 398-415) -/

/-- A client subscription object, identified by a number. -/
structure Subscription where
  id : Nat
  deriving DecidableEq, Repr

/-- The part of the process state read or written by the `SIGINT` handler:
the module variables `user_interruption_count` and `the_subscription`, and the
list of `terminate` requests issued so far (the effect of
`the_subscription.terminate(function () { })`, whose completion callback is
empty).  Console output is not part of this state. -/
structure ProcState where
  user_interruption_count : Nat
  the_subscription : Option Subscription
  terminateRequests : List Subscription
  deriving DecidableEq, Repr

/-- The state at the moment the handler is registered: `let
user_interruption_count = 0` and `let the_subscription = null`. -/
def ProcState.initial : ProcState :=
  { user_interruption_count := 0, the_subscription := none, terminateRequests := [] }

/-- Result of one invocation of the handler: the state it leaves and, when it
called `process.exit`, the status it passed. -/
structure SigintResult where
  state : ProcState
  exit : Option Nat
  deriving DecidableEq, Repr

/-- The function registered with `process.on("SIGINT", ...)`.

```
user_interruption_count += 1;
if (user_interruption_count >= 3) { process.exit(1); }
if (the_subscription) {
    the_subscription.terminate(function () { });
    the_subscription = null;
}
```
`process.exit` does not return, so nothing after it runs. -/
def onSigint (s : ProcState) : SigintResult :=
  let s1 := { s with user_interruption_count := s.user_interruption_count + 1 }
  if s1.user_interruption_count ≥ 3 then
    { state := s1, exit := some 1 }
  else
    match s1.the_subscription with
    | some sub =>
        { state := { s1 with terminateRequests := s1.terminateRequests ++ [sub],
                             the_subscription := none },
          exit := none }
    | none => { state := s1, exit := none }

/-- The state after `n` invocations of the handler, were each of them to
return (nothing else in the file writes `user_interruption_count` or
`the_subscription`). -/
def afterSigints : Nat → ProcState → ProcState
  | 0, s => s
  | n + 1, s => afterSigints n (onSigint s).state

/-- The `k`-th invocation of the handler, `k` counted from 1, in a process
whose state at registration was `s`. -/
def nthSigint (k : Nat) (s : ProcState) : SigintResult :=
  onSigint (afterSigints (k - 1) s)

/-! ## The session timeout (lines 44-45, 68-72) -/

/-- A JavaScript number as far as line 68 needs it: `none` is `NaN`, `some z`
the integer `z`.  Integers are exact here; a JavaScript number is a double, so
the two agree for magnitudes up to `2^53`, and beyond that the double is
rounded (or infinite) but, like the integer, neither zero nor `NaN`. -/
abbrev JsNum := Option Int

/-- White space skipped by `parseInt` (the ECMAScript `WhiteSpace` and
`LineTerminator` code points). -/
def isJsWhiteSpace (c : Char) : Bool :=
  let n := c.toNat
  n == 9 || n == 10 || n == 11 || n == 12 || n == 13 || n == 32 || n == 160 ||
  n == 5760 || (8192 ≤ n && n ≤ 8202) || n == 8232 || n == 8233 || n == 8239 ||
  n == 8287 || n == 12288 || n == 65279

/-- Value of a character as a digit, for radices up to 36. -/
def digitValue (c : Char) : Option Nat :=
  let n := c.toNat
  if 48 ≤ n ∧ n ≤ 57 then some (n - 48)
  else if 97 ≤ n ∧ n ≤ 122 then some (n - 97 + 10)
  else if 65 ≤ n ∧ n ≤ 90 then some (n - 65 + 10)
  else none

/-- The longest prefix of digits of the given radix, as their values. -/
def takeDigits (radix : Nat) : List Char → List Nat
  | [] => []
  | c :: cs =>
    match digitValue c with
    | some d => if d < radix then d :: takeDigits radix cs else []
    | none => []

/-- Value of a list of digits, most significant first. -/
def digitsValue (radix : Nat) (ds : List Nat) : Nat :=
  ds.foldl (fun acc d => acc * radix + d) 0

/-- The sign prefix of `parseInt`: whether it is negative, and the rest. -/
def stripSign : List Char → Bool × List Char
  | c :: cs => if c.toNat == 45 then (true, cs) else if c.toNat == 43 then (false, cs) else (false, c :: cs)
  | [] => (false, [])

/-- The radix prefix of `parseInt` called without a radix: `0x` or `0X` selects
16, anything else 10. -/
def stripRadix : List Char → Nat × List Char
  | c0 :: c1 :: cs =>
    if c0.toNat == 48 && (c1.toNat == 120 || c1.toNat == 88) then (16, cs) else (10, c0 :: c1 :: cs)
  | cs => (10, cs)

/-- ECMAScript `parseInt(string)` on a string. -/
def parseIntStr (str : String) : JsNum :=
  let s := str.toList.dropWhile isJsWhiteSpace
  let (neg, s1) := stripSign s
  let (radix, s2) := stripRadix s1
  match takeDigits radix s2 with
  | [] => none
  | ds => some (if neg then - (digitsValue radix ds : Int) else (digitsValue radix ds : Int))

/-- The call `parseInt(argv.timeout)`: `argv.timeout` is a string (the option is
declared with `.string("timeout")`) or `undefined` when the option is not
given; `undefined` is first converted to the string `"undefined"`. -/
def parseInt (arg : Option String) : JsNum :=
  match arg with
  | some s => parseIntStr s
  | none => parseIntStr "undefined"

/-- JavaScript truthiness of a number: `NaN` and zero are falsy. -/
def JsNum.truthy : JsNum → Bool
  | none => false
  | some z => z != 0

/-- Line 68: `const timeout = parseInt(argv.timeout) * 1000 || 20000;` -/
def timeout (arg : Option String) : JsNum :=
  let scaled : JsNum := (parseInt arg).map (fun z => z * 1000)
  if JsNum.truthy scaled then scaled else some 20000

/-- What line 72 prints after `"timeout             = "`. -/
inductive TimeoutReport where
  | number (ms : JsNum)
  | infinity
  deriving DecidableEq, Repr

/-- Line 72: `timeout ? timeout : " Infinity "`. -/
def timeoutReport (arg : Option String) : TimeoutReport :=
  if JsNum.truthy (timeout arg) then TimeoutReport.number (timeout arg) else TimeoutReport.infinity

/-! ## The user identity of the session (lines 205-215) -/

/-- The object literal `{ userName: ..., password: ... }`. -/
structure UserIdentity where
  userName : String
  password : String
  deriving DecidableEq, Repr

/-- JavaScript truthiness of an option value declared with `.string(...)`:
`undefined` and the empty string are falsy. -/
def truthyStr : Option String → Bool
  | none => false
  | some s => s != ""

/-- Lines 207-215:
```
let userIdentity = null; // anonymous
if (argv.userName && argv.password) {
    userIdentity = { userName: argv.userName, password: argv.password };
}
```
-/
def userIdentity (userName password : Option String) : Option UserIdentity :=
  if truthyStr userName && truthyStr password then
    match userName, password with
    | some u, some p => some { userName := u, password := p }
    | _, _ => none
  else none

/-! ## The main sequence (lines 143-392) -/

/-- An error value handed to a callback. -/
structure Err where
  message : String
  deriving DecidableEq, Repr

/-- The values of `opcua.MessageSecurityMode` the tool accepts. -/
inductive SecurityMode where
  | None
  | Sign
  | SignAndEncrypt
  deriving DecidableEq, Repr

/-- The command line after lines 58-66 and 75-81: `securityMode` and
`securityPolicy` are the coerced values, `endpointUrl` and `format` are the
(truthy) strings that let the script go past line 78. -/
structure Config where
  endpointUrl : String
  format : String
  securityMode : SecurityMode
  securityPolicy : String
  userName : Option String
  password : Option String
  deriving DecidableEq, Repr

/-- The `connectionStrategy` literal, the same at lines 149-153 and 190-194. -/
structure ConnectionStrategy where
  maxRetry : Nat
  initialDelay : Nat
  maxDelay : Nat
  deriving DecidableEq, Repr

/-- An options object given to `opcua.OPCUAClient.create`; a key that the
literal does not have, or whose value is `null`, is `none`. -/
structure ClientOptions where
  securityMode : Option SecurityMode
  securityPolicy : Option String
  serverCertificate : Option (List Nat)
  defaultSecureTokenLifetime : Option Nat
  endpoint_must_exist : Bool
  keepSessionAlive : Option Bool
  connectionStrategy : ConnectionStrategy
  deriving DecidableEq, Repr

/-- A session object returned by `client.createSession`. -/
structure Session where
  sessionId : Nat
  deriving DecidableEq, Repr

/-- The calls the sequence makes on its collaborators, in the order made. -/
inductive Action where
  | create (options : ClientOptions)
  | connect (endpointUrl : String)
  | disconnect
  | createSession (identity : Option UserIdentity)
  | readVariableValue
  | crawlerRead (nodeId : String)
  | writeLog (file : String)
  | crawlerDispose
  | sessionClose
  | reportError (e : Err)
  | reportSuccess
  | exit (status : Option Nat)
  deriving DecidableEq, Repr

/-- The outcomes of the library calls of one run, supplied from outside: for a
call taking a node-style callback, the error the callback receives (`none` for
success) or its result.  Every such call is taken to call back once.  The callback given to the
disconnect of the final callback ignores its argument, so that call has no
entry here.
`serverCertificate` is the certificate the server at the endpoint holds. -/
structure World where
  serverCertificate : List Nat
  probeConnect : Option Err
  probeDisconnect : Option Err
  secureConnect : Option Err
  createSession : Except Err Session
  readNamespaceArray : Except Err (List String)
  crawl : Except Err String
  sessionClose : Option Err
  disconnect : Option Err

/-- The module variables the sequence reads and writes: `client` (a client is
identified by the options it was created with), `the_session` and
`serverCertificate`. -/
structure Globals where
  client : Option ClientOptions
  the_session : Option Session
  serverCertificate : Option (List Nat)
  deriving DecidableEq, Repr

/-- Lines 74, 83 and 91: all three variables start as `null`. -/
def Globals.initial : Globals :=
  { client := none, the_session := none, serverCertificate := none }

/-- What running one task of the series gives: either the task called its
callback with `err`, or it threw (a method call on `null`, a failed `assert`). -/
inductive StepResult where
  | called (g : Globals) (trace : List Action) (err : Option Err)
  | thrown (g : Globals) (trace : List Action)

/-- A task of the series. -/
abbrev Step := Globals → StepResult

/-- The error of a result, if it is one. -/
def errOf {α : Type} : Except Err α → Option Err
  | Except.error e => some e
  | Except.ok _ => none

/-- The literal at lines 149-153 and 190-194. -/
def connectionStrategy : ConnectionStrategy :=
  { maxRetry := 10, initialDelay := 2000, maxDelay := 10 * 1000 }

/-- Lines 146-154. -/
def probeOptions : ClientOptions :=
  { securityMode := none, securityPolicy := none, serverCertificate := none,
    defaultSecureTokenLifetime := none, endpoint_must_exist := false,
    keepSessionAlive := some true, connectionStrategy := connectionStrategy }

/-- Lines 181-195: the options of the second client, built from the module
variables `securityMode`, `securityPolicy` and `serverCertificate`. -/
def secureOptions (cfg : Config) (g : Globals) : ClientOptions :=
  { securityMode := some cfg.securityMode, securityPolicy := some cfg.securityPolicy,
    serverCertificate := g.serverCertificate,
    defaultSecureTokenLifetime := some 40000, endpoint_must_exist := false,
    keepSessionAlive := none, connectionStrategy := connectionStrategy }

/-- Task 1, lines 144-167: create the first client and connect. -/
def probeConnectStep (cfg : Config) (w : World) : Step := fun g =>
  StepResult.called { g with client := some probeOptions }
    [Action.create probeOptions, Action.connect cfg.endpointUrl] w.probeConnect

/-- Task 2, lines 170-172: `client.disconnect(callback)`. -/
def probeDisconnectStep (w : World) : Step := fun g =>
  match g.client with
  | none => StepResult.thrown g []
  | some _ => StepResult.called g [Action.disconnect] w.probeDisconnect

/-- Task 3, lines 175-202: create the second client and connect. -/
def secureConnectStep (cfg : Config) (w : World) : Step := fun g =>
  StepResult.called { g with client := some (secureOptions cfg g) }
    [Action.create (secureOptions cfg g), Action.connect cfg.endpointUrl] w.secureConnect

/-- Task 4, lines 205-224: create the session; `the_session` is assigned only
when the callback receives no error. -/
def createSessionStep (cfg : Config) (w : World) : Step := fun g =>
  match g.client with
  | none => StepResult.thrown g []
  | some _ =>
    match w.createSession with
    | Except.ok session =>
        StepResult.called { g with the_session := some session }
          [Action.createSession (userIdentity cfg.userName cfg.password)] none
    | Except.error e =>
        StepResult.called g [Action.createSession (userIdentity cfg.userName cfg.password)] (some e)

/-- Task 5, lines 225-238: `set_event_handlers`. -/
def setEventHandlersStep : Step := fun g =>
  match g.client with
  | none => StepResult.thrown g []
  | some _ => StepResult.called g [] none

/-- Task 6, lines 241-257: read the namespace array. -/
def readNamespaceArrayStep (w : World) : Step := fun g =>
  match g.the_session with
  | none => StepResult.thrown g []
  | some _ => StepResult.called g [Action.readVariableValue] (errOf w.readNamespaceArray)

/-- The file written for a format at lines 296-350, if any. -/
def logFile (format : String) : Option String :=
  if format = "json" then some "log.json"
  else if format = "txt" then some "log.txt"
  else none

/-- Task 7, lines 261-359: crawl the objects folder. -/
def crawlStep (cfg : Config) (w : World) : Step := fun g =>
  match g.the_session with
  | none => StepResult.thrown g []
  | some _ =>
    match w.crawl with
    | Except.ok _ =>
        StepResult.called g
          ([Action.crawlerRead "ObjectsFolder"] ++
            (match logFile cfg.format with
             | some f => [Action.writeLog f]
             | none => []) ++ [Action.crawlerDispose]) none
    | Except.error e =>
        StepResult.called g [Action.crawlerRead "ObjectsFolder", Action.crawlerDispose] (some e)

/-- Task 8, lines 361-367: `the_session.close(function (err) { callback(); })`.
The error received from `close` is not passed on. -/
def closeSessionStep (w : World) : Step := fun g =>
  match g.the_session with
  | none => StepResult.thrown g []
  | some _ =>
    match w.sessionClose with
    | some _ => StepResult.called g [Action.sessionClose] none
    | none => StepResult.called g [Action.sessionClose] none

/-- Task 9, lines 369-372: `client.disconnect(callback)`. -/
def disconnectStep (w : World) : Step := fun g =>
  match g.client with
  | none => StepResult.thrown g []
  | some _ => StepResult.called g [Action.disconnect] w.disconnect

/-- The array of tasks given to `async.series`. -/
def mainSteps (cfg : Config) (w : World) : List Step :=
  [probeConnectStep cfg w, probeDisconnectStep w, secureConnectStep cfg w,
   createSessionStep cfg w, setEventHandlersStep, readNamespaceArrayStep w,
   crawlStep cfg w, closeSessionStep w, disconnectStep w]

/-- Behaviour of `async.series(tasks, final)` up to the call of `final`: the
tasks run one after the other, each started when the one before it has called
back without an error; the first error ends the series and is what `final`
receives; when all have succeeded `final` receives no error. -/
def series : List Step → Globals → StepResult
  | [], g => StepResult.called g [] none
  | t :: ts, g =>
    match t g with
    | StepResult.thrown g1 tr => StepResult.thrown g1 tr
    | StepResult.called g1 tr (some e) => StepResult.called g1 tr (some e)
    | StepResult.called g1 tr none =>
      match series ts g1 with
      | StepResult.thrown g2 tr2 => StepResult.thrown g2 (tr ++ tr2)
      | StepResult.called g2 tr2 e => StepResult.called g2 (tr ++ tr2) e

/-- The final callback, lines 373-392: report, then, when `client` is not
`null`, disconnect and, in the disconnect callback (which ignores its
argument), call `exit()` without a status. -/
def finalCallback (err : Option Err) (g : Globals) : List Action :=
  (match err with
   | some e => [Action.reportError e]
   | none => [Action.reportSuccess]) ++
  (match g.client with
   | some _ => [Action.disconnect, Action.exit none]
   | none => [])

/-- A run of the script from line 143 on. -/
structure Run where
  globals : Globals
  trace : List Action
  finalErr : Option (Option Err)
  deriving DecidableEq, Repr

/-- The main sequence: `async.series([...], function (err) {...})`.
`finalErr` is what the final callback received, when it was called. -/
def mainSequence (cfg : Config) (w : World) : Run :=
  match series (mainSteps cfg w) Globals.initial with
  | StepResult.thrown g tr => { globals := g, trace := tr, finalErr := none }
  | StepResult.called g tr err =>
      { globals := g, trace := tr ++ finalCallback err g, finalErr := some err }

/-- The argument of the call of `exit`, when the run made one. -/
def exitCall : List Action → Option (Option Nat)
  | [] => none
  | Action.exit status :: _ => some status
  | _ :: rest => exitCall rest

/-- Status with which the process ends after `exit(status)` of the package
`exit`, which calls `process.exit(status)` once the output streams are drained:
the status given, and 0 when none is given (`process.exitCode` is assigned
nowhere in the file). -/
def exitStatus (r : Run) : Option Nat :=
  (exitCall r.trace).map (fun status => status.getD 0)

/-- The options of the calls of `OPCUAClient.create` in a trace, in order. -/
def createCalls : List Action → List ClientOptions
  | [] => []
  | Action.create o :: rest => o :: createCalls rest
  | _ :: rest => createCalls rest

/-- The first error among the outcomes of the six fallible tasks before the
teardown tasks, in task order. -/
def firstError (w : World) : Option Err :=
  w.probeConnect <|> w.probeDisconnect <|> w.secureConnect <|> errOf w.createSession <|>
    errOf w.readNamespaceArray <|> errOf w.crawl

/-- A world in which every call succeeds. -/
def World.allGood : World :=
  { serverCertificate := [48, 130, 3, 1],
    probeConnect := none, probeDisconnect := none, secureConnect := none,
    createSession := Except.ok { sessionId := 7 },
    readNamespaceArray := Except.ok ["http://opcfoundation.org/UA/"],
    crawl := Except.ok "tree",
    sessionClose := none, disconnect := none }

/-- A command line: `--endpoint opc.tcp://localhost:4840 --format json
--securityMode Sign --securityPolicy Basic256`, with the policy as
`opcua.coerceSecurityPolicy` returns it, the URI of the policy. -/
def Config.sample : Config :=
  { endpointUrl := "opc.tcp://localhost:4840", format := "json",
    securityMode := SecurityMode.Sign,
    securityPolicy := "http://opcfoundation.org/UA/SecurityPolicy#Basic256",
    userName := none, password := none }

/-! ## The event dump queue (lines 93-140) -/

/-- The values of `opcua.DataType` that `__dumpEvent` tells apart, and the
others by their name. -/
inductive DataType where
  | Null
  | NodeId
  | Other (name : String)
  deriving DecidableEq, Repr

/-- The expression `DataType[variant.dataType]`: the name of the type. -/
def DataType.name : DataType → String
  | DataType.Null => "Null"
  | DataType.NodeId => "NodeId"
  | DataType.Other n => n

/-- An event field: its data type and its value, the value in the textual
form that string concatenation and `console.log` give it. -/
structure Variant where
  dataType : DataType
  value : String
  deriving DecidableEq, Repr

/-- The object literal pushed by `dumpEvent` (lines 136-138); sessions and
callbacks are identified by numbers. -/
structure Task where
  session : Nat
  fields : List String
  eventFields : List Variant
  _callback : Nat
  deriving DecidableEq, Repr

/-- Lines 101-103: `(str + "<38 spaces>").substr(0, l)`.  `substr` counts
UTF-16 code units and `String.take` code points; the two agree on text of the
basic multilingual plane. -/
def w (str : String) (l : Nat) : String :=
  (str ++ "                                      ").take l

/-- Settlement of the read awaited inside `getBrowseName` (lines 93-99): a
data value with status `Good` and a browse name, a data value with another
status (the function returns `null`), or a rejected read. -/
inductive ReadOutcome where
  | good (name : String)
  | notGood
  | rejected
  deriving DecidableEq, Repr

/-- Where an activation of the async function `__dumpEvent` stands: suspended
at `await getBrowseName(session, variant.value)` for the variant `v` with the
variants `rest` still to come, or settled (its promise fulfilled or
rejected). -/
inductive RenderStatus where
  | awaiting (v : Variant) (rest : List Variant)
  | fulfilled
  | rejected
  deriving DecidableEq, Repr

/-- The element `fields[index]` inside a string concatenation. -/
def fieldAt (fields : List String) (i : Nat) : String :=
  fields.getD i "undefined"

/-- The loop at lines 110-128, run until the next `await`, the end of the loop
or an exception; the result is the lines printed (each the list of the
arguments of `console.log`) and where the activation then stands.

`index` is the value of the identifier `index`, which the file declares
nowhere: `none` when resolving it throws a `ReferenceError`.  It is read while
the arguments of `console.log` are evaluated, so nothing is printed then. -/
def renderLoop (index : Option Nat) (fields : List String) :
    List Variant → List (List String) × RenderStatus
  | [] => ([], RenderStatus.fulfilled)
  | variant :: rest =>
    if variant.dataType = DataType.Null then renderLoop index fields rest
    else if variant.dataType = DataType.NodeId then ([], RenderStatus.awaiting variant rest)
    else
      match index with
      | none => ([], RenderStatus.rejected)
      | some i =>
        let line := [w "" 20 ++ " " ++ w (fieldAt fields i) 15, w variant.dataType.name 10,
                     variant.value]
        ((line :: (renderLoop index fields rest).1), (renderLoop index fields rest).2)

/-- Lines 93-99, `getBrowseName`, given how its read settles: `none` when the
awaited read is rejected (the function throws), otherwise the value returned,
which is the browse name for status `Good` and `null` (`none`) for any other
status. -/
def getBrowseName (o : ReadOutcome) : Option (Option String) :=
  match o with
  | ReadOutcome.rejected => none
  | ReadOutcome.good n => some (some n)
  | ReadOutcome.notGood => some none

/-- Text of a name that may be `null`, as string concatenation and
`console.log` give it. -/
def nameText : Option String → String
  | some n => n
  | none => "null"

/-- Lines 117-122 after the awaited `getBrowseName` has settled, followed by
the rest of the loop. -/
def renderResume (index : Option Nat) (fields : List String) (variant : Variant)
    (rest : List Variant) (o : ReadOutcome) : List (List String) × RenderStatus :=
  match getBrowseName o with
  | none => ([], RenderStatus.rejected)
  | some name =>
    match index with
    | none => ([], RenderStatus.rejected)
    | some i =>
      let line := [w (nameText name) 20 ++ " " ++ w (fieldAt fields i) 15,
                   w variant.dataType.name 10, nameText name, "(", w variant.value 20, ")"]
      ((line :: (renderLoop index fields rest).1), (renderLoop index fields rest).2)

/-- Lines 106-129 up to the first suspension: `async function
__dumpEvent(session, fields, eventFields)`.  The function has three
parameters. -/
def __dumpEvent (index : Option Nat) (_session : Nat) (fields : List String)
    (eventFields : List Variant) : List (List String) × RenderStatus :=
  ((["-----------------------"] :: (renderLoop index fields eventFields).1),
    (renderLoop index fields eventFields).2)

/-- An activation of `__dumpEvent` suspended at its `await`: the task it
renders (tasks are numbered in the order `dumpEvent` pushed them, from 0), the
`fields` argument, the variant whose name is awaited and the variants still to
come. -/
structure Coroutine where
  task : Nat
  fields : List String
  variant : Variant
  rest : List Variant
  deriving DecidableEq, Repr

/-- What can be observed of the queue: the worker is called for a task, which
calls `__dumpEvent`; a line is printed while a task is rendered; the promise
of a call of `__dumpEvent` settles (`ok` when fulfilled). -/
inductive Obs where
  | started (task : Nat)
  | line (task : Nat) (text : List String)
  | settled (task : Nat) (ok : Bool)
  deriving DecidableEq, Repr

/-- The task an observation belongs to. -/
def Obs.task : Obs → Nat
  | Obs.started t => t
  | Obs.line t _ => t
  | Obs.settled t _ => t

/-- State of the queue `q` and of the renderings it started: the number of
pushes so far, the waiting tasks `q._tasks` (oldest first, each with its
number), the number of workers that were started and whose callback has not
been called, the suspended activations of `__dumpEvent`, and the observations
so far. -/
structure QState where
  nextId : Nat
  tasks : List (Nat × Task)
  numRunning : Nat
  suspended : List Coroutine
  log : List Obs
  deriving DecidableEq, Repr

/-- The queue as created at line 131, before any push. -/
def QState.initial : QState :=
  { nextId := 0, tasks := [], numRunning := 0, suspended := [], log := [] }

/-- The concurrency of `async.queue(worker)` when none is given. -/
def concurrency : Nat := 1

/-- Enter what a stretch of an activation did: the lines it printed and where
it stands afterwards. -/
def record (id : Nat) (fields : List String) (r : List (List String) × RenderStatus)
    (s : QState) : QState :=
  match r.2 with
  | RenderStatus.awaiting v rest =>
      { s with log := s.log ++ r.1.map (Obs.line id),
               suspended := s.suspended ++ [{ task := id, fields := fields, variant := v, rest := rest }] }
  | RenderStatus.fulfilled =>
      { s with log := s.log ++ r.1.map (Obs.line id) ++ [Obs.settled id true] }
  | RenderStatus.rejected =>
      { s with log := s.log ++ r.1.map (Obs.line id) ++ [Obs.settled id false] }

/-- The worker of the queue, lines 131-133:
```
function (task, callback) {
    __dumpEvent(task.session, task.fields, task.eventFields, callback);
}
```
`callback` is passed as a fourth argument to a function of three parameters,
which drops it; the worker keeps no other reference to it and does not use the
promise `__dumpEvent` returns. -/
def worker (index : Option Nat) (id : Nat) (task : Task) (s : QState) : QState :=
  record id task.fields (__dumpEvent index task.session task.fields task.eventFields)
    { s with log := s.log ++ [Obs.started id] }

/-- The processing loop of `async.queue`: while fewer than `concurrency`
workers are running and a task is waiting, take the oldest waiting task, count
one more running worker and call the worker with the task.  The count goes
down only when the callback given to a worker is called. -/
def processLoop (index : Option Nat) : List (Nat × Task) → QState → QState
  | [], s => { s with tasks := [] }
  | t :: ts, s =>
    if s.numRunning < concurrency then
      processLoop index ts (worker index t.1 t.2 { s with numRunning := s.numRunning + 1 })
    else { s with tasks := t :: ts }

/-- Lines 135-140: `dumpEvent` pushes a new task on the queue. -/
def dumpEvent (session : Nat) (fields : List String) (eventFields : List Variant)
    (_callback : Nat) (s : QState) : QState :=
  { s with tasks := s.tasks ++ [(s.nextId, Task.mk session fields eventFields _callback)],
           nextId := s.nextId + 1 }

/-- The read awaited by the `k`-th suspended activation settles and the
activation runs on to its next suspension or to its end. -/
def settleRead (index : Option Nat) (k : Nat) (o : ReadOutcome) (s : QState) : QState :=
  match s.suspended.get? k with
  | none => s
  | some c =>
    record c.task c.fields (renderResume index c.fields c.variant c.rest o)
      { s with suspended := s.suspended.eraseIdx k }

/-- The events that move the queue: a call of `dumpEvent`, a run of the
processing loop (which `push` schedules for a later turn of the event loop),
and the settlement of a read some rendering awaits.  There is no event for the
call of a worker callback, since the worker drops it. -/
inductive Event where
  | dumpEvent (session : Nat) (fields : List String) (eventFields : List Variant) (_callback : Nat)
  | process
  | settle (k : Nat) (o : ReadOutcome)
  deriving DecidableEq, Repr

/-- One event. -/
def step (index : Option Nat) (s : QState) : Event → QState
  | Event.dumpEvent session fields eventFields cb => dumpEvent session fields eventFields cb s
  | Event.process => processLoop index s.tasks s
  | Event.settle k o => settleRead index k o s

/-- The queue after a sequence of events, from its creation. -/
def runQueue (index : Option Nat) (events : List Event) : QState :=
  events.foldl (step index) QState.initial

/-- The numbers of the tasks the worker was called for, in order. -/
def startedTasks : List Obs → List Nat
  | [] => []
  | Obs.started t :: rest => t :: startedTasks rest
  | _ :: rest => startedTasks rest

/-! ## Sample inputs and the invariant of the queue -/

/-- A world in which the session is created and the read of the namespace
array then fails. -/
def World.namespaceReadFails : World :=
  { World.allGood with readNamespaceArray := Except.error { message := "BadTimeout" } }

/-- A world in which the first connect fails for good. -/
def World.probeConnectFails : World :=
  { World.allGood with probeConnect := some { message := "ECONNREFUSED" } }

/-- What holds of every state the queue can reach: at most one worker counts
as running; the waiting tasks are, in order, all the pushed tasks but the
first `numRunning`; every observation belongs to task 0; before a worker has
run nothing was observed and nothing is suspended; once a worker runs it was
called for task 0 and for no other, and the rendering of task 0 is either
settled or the one suspended activation. -/
def QInv (s : QState) : Prop :=
  s.numRunning ≤ 1 ∧ s.numRunning ≤ s.nextId ∧
  s.tasks.map Prod.fst = List.range' s.numRunning (s.nextId - s.numRunning) ∧
  (∀ o ∈ s.log, o.task = 0) ∧
  (s.numRunning = 0 → s.log = [] ∧ s.suspended = []) ∧
  (s.numRunning = 1 → startedTasks s.log = [0] ∧
    ((s.suspended = [] ∧ ∃ ok, Obs.settled 0 ok ∈ s.log) ∨
      ∃ c, s.suspended = [c] ∧ c.task = 0))

/-- Two calls of `dumpEvent`, for an event with one string field each. -/
def twoEvents : List Event :=
  [Event.dumpEvent 1 ["Message"] [{ dataType := DataType.Other "String", value := "first" }] 0,
   Event.dumpEvent 1 ["Message"] [{ dataType := DataType.Other "String", value := "second" }] 0]

/-- A schedule in which a second event arrives while the rendering of the
first is suspended at its `await`. -/
def overlapping : List Event :=
  [Event.dumpEvent 1 ["SourceNode"] [{ dataType := DataType.NodeId, value := "ns=1;i=5" }] 0,
   Event.process,
   Event.dumpEvent 1 ["Message"] [{ dataType := DataType.Other "String", value := "second" }] 0,
   Event.process,
   Event.settle 0 (ReadOutcome.good "Server"),
   Event.process]

/-! ## Theorems: the SIGINT handler -/

theorem onSigint_count (s : ProcState) :
    (onSigint s).state.user_interruption_count = s.user_interruption_count + 1 := by
  unfold onSigint
  dsimp only
  split
  · rfl
  · split <;> rfl

theorem afterSigints_count (n : Nat) (s : ProcState) :
    (afterSigints n s).user_interruption_count = s.user_interruption_count + n := by
  induction n generalizing s with
  | zero => rfl
  | succ n ih =>
    show (afterSigints n (onSigint s).state).user_interruption_count = _
    rw [ih, onSigint_count]
    omega

theorem onSigint_exit (s : ProcState) :
    (onSigint s).exit = if s.user_interruption_count + 1 ≥ 3 then some 1 else none := by
  unfold onSigint
  dsimp only
  split
  · rfl
  · split <;> rfl

/-- C1: in a process whose counter starts at 0, the `k`-th invocation of the
`SIGINT` handler (`k` from 1) calls `process.exit(1)` if and only if `3 ≤ k`; the
first and second invocations do not exit; the counter after the `k`-th
invocation is `k` (never reset or decremented); a fourth invocation does what
the third does. -/
theorem sigint_exit_iff_third (s : ProcState) (k : Nat)
    (hs : s.user_interruption_count = 0) (hk : 1 ≤ k) :
    ((nthSigint k s).exit = some 1 ↔ 3 ≤ k) ∧
    (k < 3 → (nthSigint k s).exit = none) ∧
    (nthSigint k s).state.user_interruption_count = k ∧
    (nthSigint 4 s).exit = (nthSigint 3 s).exit := by
  have hc : ∀ n, (afterSigints n s).user_interruption_count = n := by
    intro n
    rw [afterSigints_count, hs]
    omega
  refine ⟨?_, ?_, ?_, ?_⟩
  · unfold nthSigint
    rw [onSigint_exit, hc]
    constructor
    · intro h
      by_contra hlt
      rw [if_neg (by omega)] at h
      exact Option.noConfusion h
    · intro h
      rw [if_pos (by omega)]
  · intro h
    unfold nthSigint
    rw [onSigint_exit, hc, if_neg (by omega)]
  · unfold nthSigint
    rw [onSigint_count, hc]
    omega
  · unfold nthSigint
    rw [onSigint_exit, onSigint_exit, hc, hc]
    rfl

/-- The third invocation in a fresh process. -/
theorem sigint_exit_iff_third_witness :
    ProcState.initial.user_interruption_count = 0 ∧ 1 ≤ 3 ∧
    (((nthSigint 3 ProcState.initial).exit = some 1 ↔ 3 ≤ 3) ∧
     (3 < 3 → (nthSigint 3 ProcState.initial).exit = none) ∧
     (nthSigint 3 ProcState.initial).state.user_interruption_count = 3 ∧
     (nthSigint 4 ProcState.initial).exit = (nthSigint 3 ProcState.initial).exit) :=
  ⟨rfl, by decide, sigint_exit_iff_third ProcState.initial 3 rfl (by decide)⟩

/-- C8: on the first or second `SIGINT` (the counter before the invocation
is 0 or 1), when `the_subscription` holds a subscription the handler issues
exactly one `terminate` request for it, sets `the_subscription` to `null` and
does not exit; when `the_subscription` is `null` the handler changes the counter
and nothing else, and does not exit. -/
theorem sigint_first_second (s : ProcState) (h : s.user_interruption_count + 1 < 3) :
    (∀ sub, s.the_subscription = some sub →
      onSigint s =
        { state := { user_interruption_count := s.user_interruption_count + 1,
                     the_subscription := none,
                     terminateRequests := s.terminateRequests ++ [sub] },
          exit := none }) ∧
    (s.the_subscription = none →
      onSigint s =
        { state := { s with user_interruption_count := s.user_interruption_count + 1 },
          exit := none }) := by
  constructor
  · intro sub hsub
    unfold onSigint
    dsimp only
    rw [if_neg (by omega)]
    simp [hsub]
  · intro hnone
    unfold onSigint
    dsimp only
    rw [if_neg (by omega)]
    simp [hnone]

/-- The second invocation with a live subscription. -/
theorem sigint_first_second_witness :
    (1 + 1 < 3) ∧
    ((∀ sub, (ProcState.mk 1 (some ⟨5⟩) []).the_subscription = some sub →
      onSigint (ProcState.mk 1 (some ⟨5⟩) []) =
        { state := { user_interruption_count := 1 + 1,
                     the_subscription := none,
                     terminateRequests := [] ++ [sub] },
          exit := none }) ∧
    ((ProcState.mk 1 (some ⟨5⟩) []).the_subscription = none →
      onSigint (ProcState.mk 1 (some ⟨5⟩) []) =
        { state := { (ProcState.mk 1 (some ⟨5⟩) []) with user_interruption_count := 1 + 1 },
          exit := none })) :=
  ⟨by decide, sigint_first_second (ProcState.mk 1 (some ⟨5⟩) []) (by decide)⟩

/-! ## Theorems: the session timeout -/

/-- C10: for the argument `-1` line 68 computes `-1000`, which line 72
prints as that number; and for no argument at all, given or absent, does line
72 print `" Infinity "`, since a falsy product is replaced by `20000`. -/
theorem timeout_negative_not_infinite :
    timeout (some "-1") = some (-1000) ∧
    timeoutReport (some "-1") = TimeoutReport.number (some (-1000)) ∧
    ∀ arg : Option String, timeoutReport arg ≠ TimeoutReport.infinity := by
  refine ⟨by decide, by decide, ?_⟩
  intro arg
  unfold timeoutReport
  have ht : JsNum.truthy (timeout arg) = true := by
    unfold timeout
    dsimp only
    split
    · assumption
    · rfl
  rw [if_pos ht]
  intro h
  exact TimeoutReport.noConfusion h

/-! ## Theorems: the user identity -/

theorem truthyStr_some {o : Option String} (h : truthyStr o = true) :
    ∃ s, o = some s ∧ s ≠ "" := by
  cases o with
  | none => simp [truthyStr] at h
  | some s => exact ⟨s, rfl, by simpa [truthyStr] using h⟩

theorem userIdentity_spec (u p : Option String) :
    (userIdentity u p = none ∨
      ∃ un pw, userIdentity u p = some { userName := un, password := pw } ∧
        u = some un ∧ p = some pw ∧ un ≠ "" ∧ pw ≠ "") ∧
    ((u = none ∨ p = none) → userIdentity u p = none) := by
  constructor
  · by_cases h : (truthyStr u && truthyStr p) = true
    · right
      rw [Bool.and_eq_true] at h
      obtain ⟨un, hu, hun⟩ := truthyStr_some h.1
      obtain ⟨pw, hp, hpw⟩ := truthyStr_some h.2
      subst hu hp
      refine ⟨un, pw, ?_, rfl, rfl, hun, hpw⟩
      simp [userIdentity, truthyStr, hun, hpw]
    · left
      simp only [userIdentity, if_neg h]
  · rintro (h | h) <;> subst h <;> simp [userIdentity, truthyStr]

/-- C6: whenever the create-session task calls back, the one call it made
is `client.createSession(userIdentity, ...)` with `userIdentity` either `null` or
a pair whose `userName` and `password` are the two options, both given and both
non-empty; when one of the two options is not given, `userIdentity` is
`null`. -/
theorem createSession_identity (cfg : Config) (w : World) (g g1 : Globals)
    (tr : List Action) (e : Option Err)
    (h : createSessionStep cfg w g = StepResult.called g1 tr e) :
    tr = [Action.createSession (userIdentity cfg.userName cfg.password)] ∧
    (userIdentity cfg.userName cfg.password = none ∨
      ∃ un pw, userIdentity cfg.userName cfg.password = some { userName := un, password := pw } ∧
        cfg.userName = some un ∧ cfg.password = some pw ∧ un ≠ "" ∧ pw ≠ "") ∧
    ((cfg.userName = none ∨ cfg.password = none) →
      userIdentity cfg.userName cfg.password = none) := by
  refine ⟨?_, (userIdentity_spec _ _).1, (userIdentity_spec _ _).2⟩
  unfold createSessionStep at h
  cases hc : g.client with
  | none => simp [hc] at h
  | some c =>
    cases hs : w.createSession with
    | ok s =>
      simp only [hc, hs] at h
      injection h with _ h2 _
      exact h2.symm
    | error e1 =>
      simp only [hc, hs] at h
      injection h with _ h2 _
      exact h2.symm

/-- A user name given without a password. -/
theorem createSession_identity_witness :
    createSessionStep { Config.sample with userName := some "operator" } World.allGood
        { Globals.initial with client := some probeOptions } =
      StepResult.called
        { Globals.initial with client := some probeOptions, the_session := some { sessionId := 7 } }
        [Action.createSession none] none ∧
    ([Action.createSession none] =
        [Action.createSession (userIdentity (some "operator") none)] ∧
     (userIdentity (some "operator") none = none ∨
       ∃ un pw, userIdentity (some "operator") none = some { userName := un, password := pw } ∧
         some "operator" = some un ∧ (none : Option String) = some pw ∧ un ≠ "" ∧ pw ≠ "") ∧
     ((some "operator" = none ∨ (none : Option String) = none) →
       userIdentity (some "operator") none = none)) :=
  ⟨rfl, createSession_identity { Config.sample with userName := some "operator" } World.allGood
    { Globals.initial with client := some probeOptions } _ _ _ rfl⟩

/-! ## Theorems: the main sequence -/

/-- C2, as stated, fails: when the session has been created and the read
of the namespace array reports an error, `the_session` is not `null` and yet
`the_session.close` is never called. -/
theorem error_after_session_leaves_session_open :
    firstError World.namespaceReadFails = some { message := "BadTimeout" } ∧
    (mainSequence Config.sample World.namespaceReadFails).globals.the_session
      = some { sessionId := 7 } ∧
    Action.sessionClose ∉ (mainSequence Config.sample World.namespaceReadFails).trace := by
  decide

/-- C3, as stated, fails: when the first connect fails the final callback
receives the error and the process still exits with status 0. -/
theorem exit_status_zero_on_error :
    (mainSequence Config.sample World.probeConnectFails).finalErr
      = some (some { message := "ECONNREFUSED" }) ∧
    exitStatus (mainSequence Config.sample World.probeConnectFails) = some 0 := by
  decide

/-- C3, amended: in every run of the main sequence the final callback is
reached and calls `exit()` without a status, so the process exits with status 0
both when every step succeeded and when the final callback received an
error. -/
theorem exit_status_independent_of_outcome (cfg : Config) (w : World) :
    (mainSequence cfg w).finalErr.isSome = true ∧
    exitCall (mainSequence cfg w).trace = some none ∧
    exitStatus (mainSequence cfg w) = some 0 := by
  have h : (mainSequence cfg w).finalErr.isSome = true ∧
      exitCall (mainSequence cfg w).trace = some none := by
    rcases w with ⟨cert, c1, d1, c2, cs, ns, cr, sc, d2⟩
    cases c1 <;> cases d1 <;> cases c2 <;> cases cs <;> cases ns <;> cases cr <;> cases sc <;>
      cases d2 <;>
      simp [mainSequence, series, mainSteps, probeConnectStep, probeDisconnectStep,
        secureConnectStep, createSessionStep, setEventHandlersStep, readNamespaceArrayStep,
        crawlStep, closeSessionStep, disconnectStep, finalCallback, Globals.initial, errOf,
        exitCall] <;>
      (cases logFile cfg.format <;> simp [exitCall])
  exact ⟨h.1, h.2, by simp [exitStatus, h.2]⟩

/-- C7: the `serverCertificate` option of every call of `OPCUAClient.create`
is `null`, whatever certificate the server holds; in the run where every call
succeeds and the server holds the certificate `[48, 130, 3, 1]` the second
client is created with the configured `securityMode` and `securityPolicy` and
with `serverCertificate: null`. -/
theorem secure_connect_without_certificate (cfg : Config) (w : World) :
    ((createCalls (mainSequence cfg w).trace).map ClientOptions.serverCertificate).all
        Option.isNone = true ∧
    World.allGood.serverCertificate = [48, 130, 3, 1] ∧
    createCalls (mainSequence Config.sample World.allGood).trace =
      [probeOptions,
       { securityMode := some SecurityMode.Sign,
         securityPolicy := some "http://opcfoundation.org/UA/SecurityPolicy#Basic256",
         serverCertificate := none, defaultSecureTokenLifetime := some 40000,
         endpoint_must_exist := false, keepSessionAlive := none,
         connectionStrategy := connectionStrategy }] := by
  refine ⟨?_, rfl, by decide⟩
  rcases w with ⟨cert, c1, d1, c2, cs, ns, cr, sc, d2⟩
  cases c1 <;> cases d1 <;> cases c2 <;> cases cs <;> cases ns <;> cases cr <;> cases sc <;>
    cases d2 <;>
    simp [mainSequence, series, mainSteps, probeConnectStep, probeDisconnectStep,
      secureConnectStep, createSessionStep, setEventHandlersStep, readNamespaceArrayStep,
      crawlStep, closeSessionStep, disconnectStep, finalCallback, Globals.initial, errOf,
      createCalls, probeOptions, secureOptions] <;>
    (cases logFile cfg.format <;> simp [createCalls])

/-- C9: when the six tasks before the teardown succeed, then for every
outcome of `the_session.close` the close-session task calls back without an
error, the disconnect task runs right after it, and what the final callback
receives is the outcome of that disconnect, never the error of `close`. -/
theorem closeSession_error_absorbed (cfg : Config) (w : World) (h : firstError w = none) :
    (∀ g : Globals, g.the_session ≠ none →
      closeSessionStep w g = StepResult.called g [Action.sessionClose] none) ∧
    (mainSequence cfg w).finalErr = some w.disconnect ∧
    ∃ pre, (mainSequence cfg w).trace =
      pre ++ [Action.sessionClose, Action.disconnect] ++
        finalCallback w.disconnect (mainSequence cfg w).globals := by
  refine ⟨?_, ?_⟩
  · intro g hg
    unfold closeSessionStep
    cases hs : g.the_session with
    | none => exact absurd hs hg
    | some s => cases w.sessionClose <;> rfl
  · rcases w with ⟨cert, c1, d1, c2, cs, ns, cr, sc, d2⟩
    cases c1 <;> cases d1 <;> cases c2 <;> cases cs <;> cases ns <;> cases cr <;>
      simp [firstError, errOf] at h
    constructor
    · cases sc <;> cases d2 <;>
        simp [mainSequence, series, mainSteps, probeConnectStep, probeDisconnectStep,
          secureConnectStep, createSessionStep, setEventHandlersStep, readNamespaceArrayStep,
          crawlStep, closeSessionStep, disconnectStep, Globals.initial, errOf]
    · refine ⟨[Action.create probeOptions, Action.connect cfg.endpointUrl, Action.disconnect,
          Action.create (secureOptions cfg { Globals.initial with client := some probeOptions }),
          Action.connect cfg.endpointUrl,
          Action.createSession (userIdentity cfg.userName cfg.password),
          Action.readVariableValue, Action.crawlerRead "ObjectsFolder"] ++
          (match logFile cfg.format with
           | some f => [Action.writeLog f]
           | none => []) ++ [Action.crawlerDispose], ?_⟩
      cases sc <;> cases d2 <;>
        simp [mainSequence, series, mainSteps, probeConnectStep, probeDisconnectStep,
          secureConnectStep, createSessionStep, setEventHandlersStep, readNamespaceArrayStep,
          crawlStep, closeSessionStep, disconnectStep, Globals.initial, errOf, finalCallback]

/-- A run in which only `the_session.close` fails. -/
theorem closeSession_error_absorbed_witness :
    firstError { World.allGood with sessionClose := some { message := "BadConnectionClosed" } }
      = none ∧
    (mainSequence Config.sample
      { World.allGood with sessionClose := some { message := "BadConnectionClosed" } }).finalErr
      = some none :=
  ⟨by decide,
   (closeSession_error_absorbed Config.sample
      { World.allGood with sessionClose := some { message := "BadConnectionClosed" } }
      (by decide)).2.1⟩

/-- C2, amended: when one of the six tasks before the teardown reports an
error `e` (the first to do so), the series ends with that task: for some
`k ≤ 7` the first `k` tasks, the last of which reported `e`, are all that ran, so
neither the close-session task nor the disconnect task runs and
`the_session.close` is not called; the final callback receives `e`, reports it,
and then disconnects the client and calls `exit()`. -/
theorem error_skips_to_final_disconnect (cfg : Config) (w : World) (e : Err)
    (h : firstError w = some e) :
    (mainSequence cfg w).finalErr = some (some e) ∧
    (∃ k g tr, k ≤ 7 ∧
      series ((mainSteps cfg w).take k) Globals.initial = StepResult.called g tr (some e) ∧
      (mainSequence cfg w).trace =
        tr ++ [Action.reportError e, Action.disconnect, Action.exit none]) ∧
    Action.sessionClose ∉ (mainSequence cfg w).trace := by
  rcases w with ⟨cert, c1, d1, c2, cs, ns, cr, sc, d2⟩
  cases c1 with
  | some e1 =>
    simp [firstError] at h
    subst h
    refine ⟨?_, ⟨1, _, _, by decide, rfl, ?_⟩, ?_⟩ <;>
      simp [mainSequence, series, mainSteps, probeConnectStep, finalCallback, Globals.initial]
  | none =>
  cases d1 with
  | some e1 =>
    simp [firstError] at h
    subst h
    refine ⟨?_, ⟨2, _, _, by decide, rfl, ?_⟩, ?_⟩ <;>
      simp [mainSequence, series, mainSteps, probeConnectStep, probeDisconnectStep,
        finalCallback, Globals.initial]
  | none =>
  cases c2 with
  | some e1 =>
    simp [firstError] at h
    subst h
    refine ⟨?_, ⟨3, _, _, by decide, rfl, ?_⟩, ?_⟩ <;>
      simp [mainSequence, series, mainSteps, probeConnectStep, probeDisconnectStep,
        secureConnectStep, finalCallback, Globals.initial]
  | none =>
  cases cs with
  | error e1 =>
    simp [firstError, errOf] at h
    subst h
    refine ⟨?_, ⟨4, _, _, by decide, rfl, ?_⟩, ?_⟩ <;>
      simp [mainSequence, series, mainSteps, probeConnectStep, probeDisconnectStep,
        secureConnectStep, createSessionStep, finalCallback, Globals.initial]
  | ok s =>
  cases ns with
  | error e1 =>
    simp [firstError, errOf] at h
    subst h
    refine ⟨?_, ⟨6, _, _, by decide, rfl, ?_⟩, ?_⟩ <;>
      simp [mainSequence, series, mainSteps, probeConnectStep, probeDisconnectStep,
        secureConnectStep, createSessionStep, setEventHandlersStep, readNamespaceArrayStep,
        errOf, finalCallback, Globals.initial]
  | ok n =>
  cases cr with
  | error e1 =>
    simp [firstError, errOf] at h
    subst h
    refine ⟨?_, ⟨7, _, _, by decide, rfl, ?_⟩, ?_⟩ <;>
      simp [mainSequence, series, mainSteps, probeConnectStep, probeDisconnectStep,
        secureConnectStep, createSessionStep, setEventHandlersStep, readNamespaceArrayStep,
        crawlStep, errOf, finalCallback, Globals.initial]
  | ok t =>
    simp [firstError, errOf] at h

/-- A run in which the read of the namespace array fails. -/
theorem error_skips_to_final_disconnect_witness :
    firstError World.namespaceReadFails = some { message := "BadTimeout" } ∧
    (mainSequence Config.sample World.namespaceReadFails).finalErr
      = some (some { message := "BadTimeout" }) :=
  ⟨by decide,
   (error_skips_to_final_disconnect Config.sample World.namespaceReadFails
      { message := "BadTimeout" } (by decide)).1⟩

/-! ## Theorems: the event dump queue -/

theorem startedTasks_append (a b : List Obs) :
    startedTasks (a ++ b) = startedTasks a ++ startedTasks b := by
  induction a with
  | nil => rfl
  | cons o a ih => cases o <;> simp [startedTasks, ih]

theorem startedTasks_lines (id : Nat) (ls : List (List String)) :
    startedTasks (ls.map (Obs.line id)) = [] := by
  induction ls with
  | nil => rfl
  | cons l ls ih => simpa [startedTasks] using ih

theorem record_spec (id : Nat) (fields : List String) (r : List (List String) × RenderStatus)
    (s : QState) :
    (record id fields r s).nextId = s.nextId ∧ (record id fields r s).tasks = s.tasks ∧
    (record id fields r s).numRunning = s.numRunning ∧
    ∃ extra, (record id fields r s).log = s.log ++ extra ∧ (∀ o ∈ extra, o.task = id) ∧
      startedTasks extra = [] ∧
      (((record id fields r s).suspended = s.suspended ∧ ∃ ok, Obs.settled id ok ∈ extra) ∨
        ∃ c, (record id fields r s).suspended = s.suspended ++ [c] ∧ c.task = id) := by
  unfold record
  rcases r with ⟨ls, st⟩
  cases st with
  | awaiting v rest =>
    refine ⟨rfl, rfl, rfl, ls.map (Obs.line id), rfl, ?_, startedTasks_lines id ls, Or.inr ⟨_, rfl, rfl⟩⟩
    intro o ho
    obtain ⟨l, _, rfl⟩ := List.mem_map.1 ho
    rfl
  | fulfilled =>
    refine ⟨rfl, rfl, rfl, ls.map (Obs.line id) ++ [Obs.settled id true], ?_, ?_, ?_,
      Or.inl ⟨rfl, true, by simp⟩⟩
    · simp
    · intro o ho
      rcases List.mem_append.1 ho with ho | ho
      · obtain ⟨l, _, rfl⟩ := List.mem_map.1 ho
        rfl
      · rw [List.mem_singleton] at ho
        subst ho
        rfl
    · rw [startedTasks_append, startedTasks_lines]
      rfl
  | rejected =>
    refine ⟨rfl, rfl, rfl, ls.map (Obs.line id) ++ [Obs.settled id false], ?_, ?_, ?_,
      Or.inl ⟨rfl, false, by simp⟩⟩
    · simp
    · intro o ho
      rcases List.mem_append.1 ho with ho | ho
      · obtain ⟨l, _, rfl⟩ := List.mem_map.1 ho
        rfl
      · rw [List.mem_singleton] at ho
        subst ho
        rfl
    · rw [startedTasks_append, startedTasks_lines]
      rfl

theorem processLoop_busy (index : Option Nat) (ts : List (Nat × Task)) (s : QState)
    (h : ¬ s.numRunning < concurrency) : processLoop index ts s = { s with tasks := ts } := by
  cases ts with
  | nil => rfl
  | cons t ts => simp [processLoop, h]

theorem QInv_initial : QInv QState.initial := by
  refine ⟨by decide, by decide, rfl, ?_, fun _ => ⟨rfl, rfl⟩, ?_⟩
  · intro o ho
    cases ho
  · intro h
    cases h

theorem QInv_dumpEvent (session : Nat) (fields : List String) (eventFields : List Variant)
    (cb : Nat) (s : QState) (h : QInv s) : QInv (dumpEvent session fields eventFields cb s) := by
  obtain ⟨h1, h2, h3, h4, h5, h6⟩ := h
  refine ⟨h1, Nat.le_succ_of_le h2, ?_, h4, h5, h6⟩
  show (s.tasks ++ [_]).map Prod.fst = List.range' s.numRunning (s.nextId + 1 - s.numRunning)
  have e : s.nextId + 1 - s.numRunning = (s.nextId - s.numRunning) + 1 := by omega
  rw [List.map_append, h3, e, List.range'_concat]
  simp
  omega

theorem QInv_process (index : Option Nat) (s : QState) (h : QInv s) :
    QInv (processLoop index s.tasks s) := by
  obtain ⟨h1, h2, h3, h4, h5, h6⟩ := h
  cases hts : s.tasks with
  | nil =>
    have : processLoop index [] s = s := by
      show { s with tasks := [] } = s
      rw [← hts]
    rw [this]
    exact ⟨h1, h2, h3, h4, h5, h6⟩
  | cons t ts =>
    by_cases hr : s.numRunning < concurrency
    · have h0 : s.numRunning = 0 := by
        unfold concurrency at hr
        omega
      obtain ⟨hlog, hsus⟩ := h5 h0
      rw [hts, h0] at h3
      have hn : 0 < s.nextId := by
        rcases Nat.eq_zero_or_pos s.nextId with hz | hp
        · rw [hz] at h3
          simp at h3
        · exact hp
      obtain ⟨m, hm⟩ : ∃ m, s.nextId = m + 1 := ⟨s.nextId - 1, by omega⟩
      rw [hm, Nat.sub_zero, List.range'_succ, List.map_cons] at h3
      injection h3 with ht hts2
      simp only [processLoop, if_pos hr]
      obtain ⟨r1, r2, r3, extra, r4, r5, r6, r7⟩ :=
        record_spec t.1 t.2.fields
          (__dumpEvent index t.2.session t.2.fields t.2.eventFields)
          { s with numRunning := s.numRunning + 1, log := s.log ++ [Obs.started t.1] }
      have hw : (worker index t.1 t.2 { s with numRunning := s.numRunning + 1 }).numRunning = 1 := by
        unfold worker
        rw [r3]
        show s.numRunning + 1 = 1
        omega
      rw [processLoop_busy index ts _ (by rw [hw]; decide)]
      unfold worker
      refine ⟨?_, ?_, ?_, ?_, ?_, ?_⟩
      · show (record _ _ _ _).numRunning ≤ 1
        rw [r3]
        show s.numRunning + 1 ≤ 1
        omega
      · show (record _ _ _ _).numRunning ≤ (record _ _ _ _).nextId
        rw [r3, r1]
        show s.numRunning + 1 ≤ s.nextId
        omega
      · show ts.map Prod.fst = List.range' (record _ _ _ _).numRunning
          ((record _ _ _ _).nextId - (record _ _ _ _).numRunning)
        rw [r3, r1]
        show ts.map Prod.fst = List.range' (s.numRunning + 1) (s.nextId - (s.numRunning + 1))
        rw [hts2, h0, hm]
        simp
      · show ∀ o ∈ (record _ _ _ _).log, o.task = 0
        rw [r4]
        intro o ho
        show o.task = 0
        rw [hlog] at ho
        simp only [List.nil_append, List.cons_append, List.mem_cons] at ho
        rcases ho with ho | ho
        · rw [ho]
          exact ht
        · rw [r5 o ho]
          exact ht
      · intro hc
        have : (record t.1 t.2.fields (__dumpEvent index t.2.session t.2.fields t.2.eventFields)
          { s with numRunning := s.numRunning + 1, log := s.log ++ [Obs.started t.1] }).numRunning
            = 0 := hc
        rw [r3] at this
        exact absurd this (Nat.succ_ne_zero _)
      · intro _
        show startedTasks (record _ _ _ _).log = [0] ∧
          (((record _ _ _ _).suspended = [] ∧ ∃ ok, Obs.settled 0 ok ∈ (record _ _ _ _).log) ∨
            ∃ c, (record _ _ _ _).suspended = [c] ∧ c.task = 0)
        rw [r4]
        constructor
        · show startedTasks ((s.log ++ [Obs.started t.1]) ++ extra) = [0]
          rw [startedTasks_append, startedTasks_append, r6, hlog, ht]
          rfl
        · rcases r7 with ⟨hs, ok, hok⟩ | ⟨c, hs, hc⟩
          · left
            refine ⟨?_, ok, ?_⟩
            · rw [hs]
              exact hsus
            · rw [← ht]
              exact List.mem_append_right _ hok
          · right
            refine ⟨c, ?_, ?_⟩
            · rw [hs]
              show s.suspended ++ [c] = [c]
              rw [hsus]
              rfl
            · rw [hc]
              exact ht
    · have : processLoop index (t :: ts) s = s := by
        rw [processLoop_busy index _ s hr, ← hts]
      rw [this]
      exact ⟨h1, h2, h3, h4, h5, h6⟩

theorem QInv_settle (index : Option Nat) (k : Nat) (o : ReadOutcome) (s : QState)
    (h : QInv s) : QInv (settleRead index k o s) := by
  unfold settleRead
  cases hk : s.suspended.get? k with
  | none => exact h
  | some c =>
    obtain ⟨h1, h2, h3, h4, h5, h6⟩ := h
    have hne : s.suspended ≠ [] := by
      intro he
      rw [he] at hk
      simp at hk
    have hrun : s.numRunning = 1 := by
      rcases Nat.eq_zero_or_pos s.numRunning with hz | hp
      · exact absurd (h5 hz).2 hne
      · omega
    obtain ⟨hst, hsus⟩ := h6 hrun
    rcases hsus with ⟨he, _⟩ | ⟨c0, hc0, hct⟩
    · exact absurd he hne
    · have hk0 : k = 0 := by
        cases k with
        | zero => rfl
        | succ k =>
          rw [hc0] at hk
          simp at hk
      subst hk0
      rw [hc0] at hk
      simp only [List.get?_cons_zero, Option.some.injEq] at hk
      subst hk
      obtain ⟨r1, r2, r3, extra, r4, r5, r6, r7⟩ :=
        record_spec c0.task c0.fields (renderResume index c0.fields c0.variant c0.rest o)
          { s with suspended := s.suspended.eraseIdx 0 }
      have hers : s.suspended.eraseIdx 0 = [] := by
        rw [hc0]
        rfl
      dsimp only
      refine ⟨?_, ?_, ?_, ?_, ?_, ?_⟩
      · rw [r3]
        exact h1
      · rw [r3, r1]
        exact h2
      · rw [r2, r3, r1]
        exact h3
      · rw [r4]
        intro ob hob
        rcases List.mem_append.1 hob with hob | hob
        · exact h4 ob hob
        · rw [r5 ob hob]
          exact hct
      · intro hc
        rw [r3] at hc
        change s.numRunning = 0 at hc
        omega
      · intro _
        rw [r4]
        constructor
        · show startedTasks (s.log ++ extra) = [0]
          rw [startedTasks_append, r6, hst]
          rfl
        · rcases r7 with ⟨hs, ok, hok⟩ | ⟨c, hs, hc⟩
          · left
            refine ⟨?_, ok, ?_⟩
            · rw [hs]
              exact hers
            · rw [← hct]
              exact List.mem_append_right _ hok
          · right
            refine ⟨c, ?_, ?_⟩
            · rw [hs]
              show s.suspended.eraseIdx 0 ++ [c] = [c]
              rw [hers]
              rfl
            · rw [hc]
              exact hct

theorem QInv_step (index : Option Nat) (s : QState) (e : Event) (h : QInv s) :
    QInv (step index s e) := by
  cases e with
  | dumpEvent session fields eventFields cb => exact QInv_dumpEvent _ _ _ _ s h
  | process => exact QInv_process index s h
  | settle k o => exact QInv_settle index k o s h

theorem QInv_foldl (index : Option Nat) (events : List Event) (s : QState) (h : QInv s) :
    QInv (events.foldl (step index) s) := by
  induction events generalizing s with
  | nil => exact h
  | cons e es ih => exact ih _ (QInv_step index s e h)

theorem QInv_runQueue (index : Option Nat) (events : List Event) :
    QInv (runQueue index events) :=
  QInv_foldl index events _ QInv_initial

theorem nextId_step (index : Option Nat) (s : QState) (e : Event) :
    s.nextId ≤ (step index s e).nextId := by
  cases e with
  | dumpEvent session fields eventFields cb => exact Nat.le_succ _
  | process =>
    show s.nextId ≤ (processLoop index s.tasks s).nextId
    generalize s.tasks = ts
    induction ts generalizing s with
    | nil => exact Nat.le_refl _
    | cons t ts ih =>
      unfold processLoop
      split
      · refine Nat.le_trans ?_ (ih _)
        unfold worker
        rw [(record_spec _ _ _ _).1]
      · exact Nat.le_refl _
  | settle k o =>
    show s.nextId ≤ (settleRead index k o s).nextId
    unfold settleRead
    split
    · exact Nat.le_refl _
    · rw [(record_spec _ _ _ _).1]

theorem nextId_foldl (index : Option Nat) (events : List Event) (s : QState) :
    s.nextId ≤ (events.foldl (step index) s).nextId := by
  induction events generalizing s with
  | nil => exact Nat.le_refl _
  | cons e es ih => exact Nat.le_trans (nextId_step index s e) (ih _)

/-- C4: after two calls of `dumpEvent`, whatever their arguments and
whatever happens afterwards (further calls, runs of the processing loop,
settlements of awaited reads), the second task is still waiting in the queue
and the worker has never been called for it; with the two events of
`twoEvents` and the processing loop run twice, task 0 has been rendered and
task 1 has not. -/
theorem dumpQueue_second_task_never_rendered (index : Option Nat)
    (s1 s2 c1 c2 : Nat) (f1 f2 : List String) (v1 v2 : List Variant) (later : List Event) :
    1 ∈ (runQueue index
      (Event.dumpEvent s1 f1 v1 c1 :: Event.dumpEvent s2 f2 v2 c2 :: later)).tasks.map Prod.fst ∧
    1 ∉ startedTasks (runQueue index
      (Event.dumpEvent s1 f1 v1 c1 :: Event.dumpEvent s2 f2 v2 c2 :: later)).log ∧
    startedTasks (runQueue none (twoEvents ++ [Event.process, Event.process])).log = [0] ∧
    (runQueue none (twoEvents ++ [Event.process, Event.process])).tasks.map Prod.fst = [1] := by
  refine ⟨?_, ?_, by decide, by decide⟩
  · obtain ⟨h1, h2, h3, -, -, -⟩ :=
      QInv_runQueue index (Event.dumpEvent s1 f1 v1 c1 :: Event.dumpEvent s2 f2 v2 c2 :: later)
    have hn : 2 ≤ (runQueue index
        (Event.dumpEvent s1 f1 v1 c1 :: Event.dumpEvent s2 f2 v2 c2 :: later)).nextId :=
      nextId_foldl index later
        (step index (step index QState.initial (Event.dumpEvent s1 f1 v1 c1))
          (Event.dumpEvent s2 f2 v2 c2))
    rw [h3, List.mem_range']
    by_cases hr : (runQueue index
        (Event.dumpEvent s1 f1 v1 c1 :: Event.dumpEvent s2 f2 v2 c2 :: later)).numRunning = 0
    · exact ⟨1, by omega, by omega⟩
    · exact ⟨0, by omega, by omega⟩
  · obtain ⟨h1, -, -, -, h5, h6⟩ :=
      QInv_runQueue index (Event.dumpEvent s1 f1 v1 c1 :: Event.dumpEvent s2 f2 v2 c2 :: later)
    by_cases hr : (runQueue index
        (Event.dumpEvent s1 f1 v1 c1 :: Event.dumpEvent s2 f2 v2 c2 :: later)).numRunning = 0
    · rw [(h5 hr).1]
      simp [startedTasks]
    · rw [(h6 (by omega)).1]
      decide

/-- After any sequence of events at most one worker counts as running and at
most one rendering is suspended; the observations are in the order of the
tasks, so nothing of another task lies between two observations of one task;
and every task the worker was called for is either rendered to its end or is
the one suspended rendering. -/
theorem queue_at_most_one_in_flight (index : Option Nat) (events : List Event) :
    (runQueue index events).numRunning ≤ concurrency ∧
    (runQueue index events).suspended.length ≤ 1 ∧
    ((runQueue index events).log.map Obs.task).Pairwise (fun a b => a ≤ b) ∧
    (∀ pre x mid y post, (runQueue index events).log = pre ++ x :: mid ++ y :: post →
      x.task = y.task → ∀ z ∈ mid, z.task = x.task) ∧
    (∀ id, Obs.started id ∈ (runQueue index events).log →
      (∃ ok, Obs.settled id ok ∈ (runQueue index events).log) ∨
        (runQueue index events).suspended.map Coroutine.task = [id]) := by
  obtain ⟨h1, h2, h3, h4, h5, h6⟩ := QInv_runQueue index events
  have hsus : (runQueue index events).suspended = [] ∨
      ∃ c, (runQueue index events).suspended = [c] ∧ c.task = 0 := by
    rcases Nat.eq_zero_or_pos (runQueue index events).numRunning with hz | hp
    · exact Or.inl (h5 hz).2
    · rcases (h6 (by omega)).2 with ⟨he, _⟩ | hc
      · exact Or.inl he
      · exact Or.inr hc
  refine ⟨h1, ?_, ?_, ?_, ?_⟩
  · rcases hsus with he | ⟨c, hc, _⟩
    · rw [he]
      exact Nat.zero_le _
    · rw [hc]
      exact Nat.le_refl _
  · rw [List.pairwise_map]
    exact List.pairwise_of_forall_mem_list (fun a ha b hb => by rw [h4 a ha, h4 b hb])
  · intro pre x mid y post hlog _ z hz
    have hx : x ∈ (runQueue index events).log := by
      rw [hlog]
      simp
    have hzm : z ∈ (runQueue index events).log := by
      rw [hlog]
      simp [hz]
    rw [h4 x hx, h4 z hzm]
  · intro id hid
    have hid0 : id = 0 := h4 _ hid
    subst hid0
    rcases Nat.eq_zero_or_pos (runQueue index events).numRunning with hz | hp
    · rw [(h5 hz).1] at hid
      cases hid
    · rcases (h6 (by omega)).2 with ⟨_, hok⟩ | ⟨c, hc, hct⟩
      · exact Or.inl hok
      · right
        rw [hc]
        simp [hct]

theorem numRunning_step (index : Option Nat) (s : QState) (e : Event) :
    s.numRunning ≤ (step index s e).numRunning := by
  cases e with
  | dumpEvent session fields eventFields cb => exact Nat.le_refl _
  | process =>
    show s.numRunning ≤ (processLoop index s.tasks s).numRunning
    generalize s.tasks = ts
    induction ts generalizing s with
    | nil => exact Nat.le_refl _
    | cons t ts ih =>
      unfold processLoop
      split
      · refine Nat.le_trans ?_ (ih _)
        unfold worker
        rw [(record_spec _ _ _ _).2.2.1]
        exact Nat.le_succ _
      · exact Nat.le_refl _
  | settle k o =>
    show s.numRunning ≤ (settleRead index k o s).numRunning
    unfold settleRead
    split
    · exact Nat.le_refl _
    · rw [(record_spec _ _ _ _).2.2.1]

theorem numRunning_foldl (index : Option Nat) (events : List Event) (s : QState) :
    s.numRunning ≤ (events.foldl (step index) s).numRunning := by
  induction events generalizing s with
  | nil => exact Nat.le_refl _
  | cons e es ih => exact Nat.le_trans (numRunning_step index s e) (ih _)

/-- C5: in the schedule `overlapping` a second event is pushed while the
rendering of the first is suspended at its `await`; the awaited read then
settles and the processing loop runs again.  The first rendering comes to its
end (fulfilled with all its lines when `index` resolves to 0; rejected after the
separator line when resolving `index` throws), nothing is suspended any more,
and yet the worker has been called for task 0 only and the second task is
still waiting.  Whatever events follow and whatever `index` is, the worker is
never called for the second task: its rendering does not begin after the first
has completed either. -/
theorem dumpQueue_second_rendering_never_begins (index : Option Nat) (later : List Event) :
    (runQueue (some 0) overlapping).log =
      [Obs.started 0, Obs.line 0 ["-----------------------"],
       Obs.line 0 [w "Server" 20 ++ " " ++ w "SourceNode" 15, w "NodeId" 10, "Server", "(",
                   w "ns=1;i=5" 20, ")"],
       Obs.settled 0 true] ∧
    (runQueue none overlapping).log =
      [Obs.started 0, Obs.line 0 ["-----------------------"], Obs.settled 0 false] ∧
    (runQueue (some 0) overlapping).suspended = [] ∧
    (runQueue none overlapping).suspended = [] ∧
    (runQueue (some 0) overlapping).tasks.map Prod.fst = [1] ∧
    (runQueue none overlapping).tasks.map Prod.fst = [1] ∧
    startedTasks (runQueue index (overlapping ++ later)).log = [0] ∧
    1 ∈ (runQueue index (overlapping ++ later)).tasks.map Prod.fst := by
  have hsplit : runQueue index (overlapping ++ later) =
      later.foldl (step index) (runQueue index overlapping) := by
    unfold runQueue
    rw [List.foldl_append]
  have hrun0 : (runQueue index overlapping).numRunning = 1 := by
    cases index <;> rfl
  have hid0 : (runQueue index overlapping).nextId = 2 := by
    cases index <;> rfl
  obtain ⟨h1, h2, h3, -, -, h6⟩ := QInv_runQueue index (overlapping ++ later)
  have hrun : (runQueue index (overlapping ++ later)).numRunning = 1 := by
    have := numRunning_foldl index later (runQueue index overlapping)
    rw [← hsplit, hrun0] at this
    omega
  have hid : 2 ≤ (runQueue index (overlapping ++ later)).nextId := by
    have := nextId_foldl index later (runQueue index overlapping)
    rw [← hsplit, hid0] at this
    exact this
  refine ⟨by rfl, by decide, by decide, by decide, by decide, by decide, (h6 hrun).1, ?_⟩
  rw [h3, hrun, List.mem_range']
  exact ⟨0, by omega, by omega⟩

end Crawler
